import Mathlib

/-!
Verification of the booking-concierge webhook (a Dialogflow fulfillment
backend).  The repository consists of several concatenated revisions of one
handler file; the definitions below embed the handler logic of the cited
revisions: pure helpers (`getAvailableVenues`, `buildDubaiUTC`, `formatDubai`,
`createBooking`) and the per-intent branches of the webhook dispatcher.
External effects (the Airtable HTTP fetch, the record insert, the SMTP send)
are passed in as explicit outcomes; the generative-text API is out of scope
(it only rephrases prompts and the revision hosting `sendEmailWithPdf`
implements `generateGeminiReply` as the identity on its prompt).
JavaScript truthiness is modelled by letting the empty string stand for an
absent/blank string field and `0` for an absent numeric field.
-/

namespace BookingWebhook

/-- JavaScript `String.prototype.indexOf` for a single character: index of the
first occurrence, or -1 when the character is absent. -/
def jsIndexOf (s : String) (c : Char) : Int :=
  match s.toList.findIdx? (fun x => x == c) with
  | some i => (i : Int)
  | none => -1

/-- JavaScript `String.prototype.substring start stop` (stop exclusive), for
arguments with `start ≤ stop` (the only way the source calls it). -/
def jsSubstring (s : String) (start stop : Nat) : String :=
  String.mk ((s.toList.drop start).take (stop - start))

/-- Boolean substring test: `pat` occurs contiguously inside `s`. -/
def strContains (s pat : String) : Bool :=
  decide (pat.data <:+: s.data)

/-- JavaScript `String.prototype.endsWith`. -/
def strEndsWith (s suffix : String) : Bool :=
  decide (suffix.data <:+ s.data)

/-- Split a character list on a separator character. -/
def splitCharAux (c : Char) : List Char → List (List Char)
  | [] => [[]]
  | x :: xs =>
    match splitCharAux c xs with
    | [] => [[]]
    | g :: gs => if x == c then [] :: g :: gs else (x :: g) :: gs

/-- Split a string on a single-character separator. -/
def splitOnChar (s : String) (c : Char) : List String :=
  (splitCharAux c s.data).map String.mk

/-- Parse a non-empty all-digit string as a natural number. -/
def digitsToNat? (s : String) : Option Nat :=
  if s.data ≠ [] ∧ s.data.all (fun c => c.isDigit) then
    some (s.data.foldl (fun n c => n * 10 + (c.toNat - 48)) 0)
  else none

/-- ASCII lower-casing of one character. -/
def charLower (c : Char) : Char :=
  if 'A' ≤ c ∧ c ≤ 'Z' then Char.ofNat (c.toNat + 32) else c

/-- ASCII `String.prototype.toLowerCase` (venue names are ASCII). -/
def strLower (s : String) : String :=
  String.mk (s.data.map charLower)

/-- Join strings with a separator (`Array.prototype.join`). -/
def joinSep (sep : String) : List String → String
  | [] => ""
  | [x] => x
  | x :: xs => x ++ sep ++ joinSep sep xs

/- ### Civil-calendar arithmetic (model of the moment-timezone library calls)

The booking flow converts between Asia/Dubai wall-clock date-times and UTC.
Asia/Dubai has a fixed UTC+04:00 offset and no daylight saving, so the
library calls reduce to proleptic-Gregorian day counting plus a 240-minute
shift.  `rataDie`/`civilFromDays` are the standard civil-from-days /
days-from-civil pair restricted to years ≥ 1 (all dates in play are
contemporary). -/

/-- Day count of a civil date (proleptic Gregorian, year ≥ 1) on a fixed
linear day scale. -/
def rataDie (y m d : Nat) : Nat :=
  let yAdj := if m ≤ 2 then y - 1 else y
  let era := yAdj / 400
  let yoe := yAdj % 400
  let mp := if 2 < m then m - 3 else m + 9
  let doy := (153 * mp + 2) / 5 + d - 1
  let doe := yoe * 365 + yoe / 4 - yoe / 100 + doy
  era * 146097 + doe

/-- Inverse of `rataDie`: the civil date `(year, month, day)` of a day count. -/
def civilFromDays (z : Nat) : Nat × Nat × Nat :=
  let era := z / 146097
  let doe := z % 146097
  let yoe := (doe - doe / 1460 + doe / 36524 - doe / 146096) / 365
  let yAdj := yoe + era * 400
  let doy := doe - (365 * yoe + yoe / 4 - yoe / 100)
  let mp := (5 * doy + 2) / 153
  let d := doy - (153 * mp + 2) / 5 + 1
  let m := if mp < 10 then mp + 3 else mp - 9
  (if m ≤ 2 then yAdj + 1 else yAdj, m, d)

/-- Day count of the Unix epoch 1970-01-01. -/
def epochRataDie : Nat := rataDie 1970 1 1

/-- Minutes since the Unix epoch of a civil UTC date-time (minute precision:
the handlers never carry seconds). -/
def utcMinutes (y m d hh mi : Nat) : Int :=
  ((rataDie y m d : Int) - (epochRataDie : Int)) * 1440 + (hh * 60 + mi : Nat)

/-- Two-digit zero padding. -/
def pad2 (n : Nat) : String :=
  if n < 10 then "0" ++ toString n else toString n

/-- Four-digit zero padding. -/
def pad4 (n : Nat) : String :=
  if n < 10 then "000" ++ toString n
  else if n < 100 then "00" ++ toString n
  else if n < 1000 then "0" ++ toString n
  else toString n

/-- Parse a `YYYY-MM-DD` string. -/
def parseYMD (s : String) : Option (Nat × Nat × Nat) :=
  match splitOnChar s '-' with
  | [ys, ms, ds] => do
    let y ← digitsToNat? ys
    let m ← digitsToNat? ms
    let d ← digitsToNat? ds
    pure (y, m, d)
  | _ => none

/-- Parse an `HH:mm` string. -/
def parseHHMM (s : String) : Option (Nat × Nat) :=
  match splitOnChar s ':' with
  | [hs, ms] => do
    let h ← digitsToNat? hs
    let m ← digitsToNat? ms
    pure (h, m)
  | _ => none

/-- Parse a UTC ISO string (the shape produced by `toISOString`), down to
minute precision, into minutes since the Unix epoch. -/
def parseIsoUtc (s : String) : Option Int := do
  let (y, m, d) ← parseYMD (jsSubstring s 0 10)
  let (hh, mi) ← parseHHMM (jsSubstring s 11 16)
  pure (utcMinutes y m d hh mi)

/-- Render minutes since the Unix epoch as a UTC ISO string, the shape
`moment.toISOString` produces for the whole-minute instants the flow builds
(seconds and milliseconds zero). -/
def minutesToIsoUtc (t : Int) : String :=
  if t < 0 then "Invalid date"
  else
    let n := t.toNat
    let c := civilFromDays (n / 1440 + epochRataDie)
    pad4 c.1 ++ "-" ++ pad2 c.2.1 ++ "-" ++ pad2 c.2.2 ++ "T" ++
      pad2 (n % 1440 / 60) ++ ":" ++ pad2 (n % 1440 % 60) ++ ":00.000Z"

/-- Fixed UTC offset of Asia/Dubai, in minutes (UTC+04:00 year-round). -/
def dubaiOffsetMinutes : Int := 240

/-- `buildDubaiUTC` (src/unnamed/part_000 lines 200-203): interpret
`date ++ " " ++ time` as an Asia/Dubai wall clock and return the UTC ISO
string.  The 24-hour `HH:mm` entry of the moment format list is the one every
caller hits (times are pre-extracted as `HH:mm`); unparseable input models a
moment invalid date as `none`. -/
def buildDubaiUTC (date time : String) : Option String := do
  let (y, m, d) ← parseYMD date
  let (hh, mi) ← parseHHMM time
  pure (minutesToIsoUtc (utcMinutes y m d hh mi - dubaiOffsetMinutes))

/-- English month name, as the moment `MMMM` token renders it. -/
def monthName : Nat → String
  | 1 => "January"
  | 2 => "February"
  | 3 => "March"
  | 4 => "April"
  | 5 => "May"
  | 6 => "June"
  | 7 => "July"
  | 8 => "August"
  | 9 => "September"
  | 10 => "October"
  | 11 => "November"
  | _ => "December"

/-- English weekday name indexed Sunday = 0, as the moment `dddd` token
renders it. -/
def dayName : Nat → String
  | 0 => "Sunday"
  | 1 => "Monday"
  | 2 => "Tuesday"
  | 3 => "Wednesday"
  | 4 => "Thursday"
  | 5 => "Friday"
  | _ => "Saturday"

/-- `formatDubai` (src/unnamed/part_000 lines 184-191): format a UTC ISO
string in Asia/Dubai as `(dddd, D MMMM, h:mm A, YYYY-MM-DD HH:mm:ss)` —
display date, display time, and the local date-time string. -/
def formatDubai (utcIso : String) : String × String × String :=
  match parseIsoUtc utcIso with
  | none => ("Invalid date", "Invalid date", "Invalid date")
  | some t =>
    let loc := t + dubaiOffsetMinutes
    if loc < 0 then ("Invalid date", "Invalid date", "Invalid date")
    else
      let n := loc.toNat
      let days := n / 1440
      let c := civilFromDays (days + epochRataDie)
      let hh := n % 1440 / 60
      let mi := n % 1440 % 60
      let h12 := if hh % 12 = 0 then 12 else hh % 12
      let ampm := if hh < 12 then "AM" else "PM"
      (dayName ((days + 4) % 7) ++ ", " ++ toString c.2.2 ++ " " ++ monthName c.2.1,
       toString h12 ++ ":" ++ pad2 mi ++ " " ++ ampm,
       pad4 c.1 ++ "-" ++ pad2 c.2.1 ++ "-" ++ pad2 c.2.2 ++ " " ++
         pad2 hh ++ ":" ++ pad2 mi ++ ":00")

/- ### Venue listing -/

/-- A raw Airtable venue record: every field can be absent. -/
structure RawRecord where
  id : String
  space_name : Option String
  description : Option String
  standing_capacity : Option Int
  seated_capacity : Option Int
deriving DecidableEq, Repr

/-- The mapped venue shape the handlers work with. -/
structure Venue where
  id : String
  name : String
  description : String
  standing_capacity : Int
  seated_capacity : Int
deriving DecidableEq, Repr

/-- `getAvailableVenues` (src/index.js lines 41-62 and src/unnamed/part_000
lines 99-120).  The Airtable HTTP fetch outcome is passed in; on a
fetch/auth error the function logs and returns `[]`.  The capacity filter is
guarded by JavaScript truthiness of `guestCount` (absent or 0 disables it),
and a record with no `standing_capacity` fails the `>=` comparison.  Records
whose mapped `name` is blank are dropped by the final filter. -/
def getAvailableVenues (fetchResult : Except Unit (List RawRecord))
    (guestCount : Option Int) : List Venue :=
  match fetchResult with
  | Except.error _ => []
  | Except.ok records =>
    ((records.filter fun r =>
        match guestCount with
        | some g =>
          if g = 0 then true
          else
            match r.standing_capacity with
            | some c => decide (g ≤ c)
            | none => false
        | none => true).map fun r =>
      { id := r.id
        name := r.space_name.getD ""
        description := r.description.getD ""
        standing_capacity := r.standing_capacity.getD 0
        seated_capacity := r.seated_capacity.getD 0 }).filter fun v => v.name != ""

/- ### Booking Intent: type inference and time extraction -/

/-- The category string of the Booking Intent handler
(`guestCount <= 10 ? "a general reservation" : "a group booking"`,
src/index.js line 391 and src/unnamed/part_000 line 455). -/
def inferCategory (guestCount : Int) : String :=
  if guestCount ≤ 10 then "a general reservation" else "a group booking"

/-- The `type` stored into the booking-flow context
(`category === "a general reservation" ? "table" : "group"`). -/
def inferType (guestCount : Int) : String :=
  if inferCategory guestCount = "a general reservation" then "table" else "group"

/-- Literal wall-clock extraction of the Booking Intent handler
(src/unnamed/part_000 lines 440-448): take the `HH:mm` substring between the
`T` and the `+` of the offset-bearing timestamp.  The `else` branch of the
source falls back to a moment re-parse (a library call, marked `none` here);
the offset-bearing platform timestamps always hit the main branch. -/
def extractBookingTimeStr (rawBookingTime : String) : Option String :=
  let timeStartIndex := jsIndexOf rawBookingTime 'T' + 1
  let timeEndIndex := jsIndexOf rawBookingTime '+'
  if timeStartIndex ≠ -1 ∧ timeEndIndex ≠ -1 ∧ timeStartIndex < timeEndIndex then
    some (jsSubstring (jsSubstring rawBookingTime timeStartIndex.toNat timeEndIndex.toNat) 0 5)
  else
    none

/-- `moment(raw).format("YYYY-MM-DD")` on a calendar-date string: its first
ten characters (the date part). -/
def momentDateOnly (raw : String) : String := jsSubstring raw 0 10

/-- The data carried by the booking-flow context the Booking Intent handler
emits: `{ guestCount, bookingUTC, type }`. -/
structure BookingFlowOut where
  guestCount : Int
  bookingUTC : String
  type : String
deriving DecidableEq, Repr

/-- The state-relevant output of the Booking Intent handler: the re-emitted
booking-flow context (lifespan 5) and the advance to venue selection (the
`awaiting-venue-selection` context, lifespan 2). -/
structure BookingIntentResponse where
  bookingFlow : BookingFlowOut
  bookingFlowLifespan : Nat
  venueSelection : Bool
  venueSelectionLifespan : Nat
deriving DecidableEq, Repr

/-- Booking Intent handler (src/unnamed/part_000 lines 423-481), scalar
parameters (the array collapse picks the first date and the last time and
yields scalars).  The venue fetch and the generated reply text only feed the
prompt, not the emitted contexts; the fallback time-parse branch is `none`. -/
def bookingIntent (guestCount : Int) (bookingdate bookingtime : String) :
    Option BookingIntentResponse :=
  match extractBookingTimeStr bookingtime with
  | none => none
  | some bookingTimeStr =>
    match buildDubaiUTC (momentDateOnly bookingdate) bookingTimeStr with
    | none => none
    | some bookingUTC =>
      let category := inferCategory guestCount
      some
        { bookingFlow :=
            { guestCount := guestCount
              bookingUTC := bookingUTC
              type := if category = "a general reservation" then "table" else "group" }
          bookingFlowLifespan := 5
          venueSelection := true
          venueSelectionLifespan := 2 }

/- ### Conversation state: the booking-flow context draft -/

/-- The booking draft carried in the `booking-flow` context's parameter bag.
String fields use `""` for a JavaScript-absent/blank value and `guestCount`
and `grand_total` use `0` (both are falsy, exactly as the handlers test
them). -/
structure BookingDraft where
  type : String := ""
  guestCount : Int := 0
  bookingDate : String := ""
  bookingTime : String := ""
  bookingUTC : String := ""
  venue : String := ""
  venue_id : String := ""
  full_name : String := ""
  mobile_number : String := ""
  phone_number : String := ""
  email_id : String := ""
  packages : List String := []
  package_ids : List String := []
  selected_add_ons : List String := []
  grand_total : Int := 0
deriving DecidableEq, Repr

/-- The all-absent draft (`{}` in the handlers). -/
def emptyDraft : BookingDraft := {}

/-- An inbound context from the webhook request (`queryResult.outputContexts`
entry): full resource name plus its parameter bag. -/
structure InCtx where
  name : String
  parameters : BookingDraft
deriving DecidableEq, Repr

/-- An outbound context of a webhook response.  `params = none` models a
context emitted without a `parameters` key (the platform then keeps the
context's previously stored parameters). -/
structure OutCtx where
  name : String
  lifespanCount : Nat
  params : Option BookingDraft := none
deriving DecidableEq, Repr

/-- A webhook response: the fulfillment text and the re-emitted contexts. -/
structure WebhookResponse where
  fulfillmentText : String
  outputContexts : List OutCtx := []
deriving DecidableEq, Repr

/-- `findContext` (the in-handler helper): first supplied context whose full
resource name ends with `/contexts/<name>`.  (The two-argument global helper
also accepts an exact match against an environment-derived full name; the
suffix test is the branch every real request hits.) -/
def findContext (contextName : String) (contexts : List InCtx) : Option InCtx :=
  contexts.find? fun c => strEndsWith c.name ("/contexts/" ++ contextName)

/-- `getParameter` resolution for one string parameter: the current turn's
value when truthy, else the value the carried context holds for that key
(the booking-flow context is the only supplied context carrying the contact
keys), else absent (`""`). -/
def getParam (current stored : String) : String :=
  if current ≠ "" then current else stored

/-- `Number.toFixed 2` for the whole AED amounts the flow computes. -/
def toFixed2 (n : Int) : String := toString n ++ ".00"

/- ### Select Venue Intent (src/unnamed/part_000 lines 630-739) -/

/-- The predicate of the venue lookup in Select Venue Intent: name present,
case-insensitive exact match, standing capacity at least the party size. -/
def venueMatches (venueName : String) (guestCount : Int) (v : Venue) : Bool :=
  v.name != "" && strLower v.name == venueName && decide (guestCount ≤ v.standing_capacity)

/-- The venue-selection re-prompt of Select Venue Intent. -/
def venueNotFoundText : String :=
  "Hmm, I couldn’t find that venue for your group size. Could you try another?"

/-- Select Venue Intent handler (src/unnamed/part_000 lines 630-739).
`venueNameParam` is the collapsed `venue_name` parameter (`""` when absent);
`fetchResult` is the Airtable fetch outcome consumed by
`getAvailableVenues`.  The Gemini prompt texts of the two advance branches
are summarised by the emitted contexts (both advance to
`awaiting-contact-details`). -/
def selectVenueIntent (session : String) (venueNameParam : String)
    (ctxs : List InCtx) (fetchResult : Except Unit (List RawRecord)) : WebhookResponse :=
  let d := match findContext "booking-flow" ctxs with
    | some c => c.parameters
    | none => emptyDraft
  let venueRaw :=
    if (venueNameParam = "" ∨ venueNameParam = ".") ∧ d.venue ≠ "" then d.venue
    else venueNameParam
  if d.guestCount = (0 : Int) ∨ d.bookingUTC = "" then
    { fulfillmentText :=
        "To book " ++ venueRaw ++
          ", I\x27ll also need to know the number of guests, the date, and the time. Could you please provide those details?"
      outputContexts :=
        [⟨session ++ "/contexts/booking-flow", 5, some { emptyDraft with venue := venueRaw }⟩] }
  else
    let venueName := strLower venueRaw
    let availableVenues := getAvailableVenues fetchResult (some d.guestCount)
    match availableVenues.find? (venueMatches venueName d.guestCount) with
    | none =>
      { fulfillmentText := venueNotFoundText
        outputContexts := [] }
    | some m =>
      let updated : BookingDraft :=
        { emptyDraft with
            guestCount := d.guestCount
            bookingUTC := d.bookingUTC
            venue := m.name
            venue_id := m.id
            type := d.type }
      { fulfillmentText :=
          if d.type = "group" then
            "Great! You\x27ve chosen " ++ m.name ++ " for your group booking of " ++
              toString d.guestCount ++ " guests on " ++ (formatDubai d.bookingUTC).1 ++
              " at " ++ (formatDubai d.bookingUTC).2.1 ++
              ". Our manager will share pre-curated package options with you. To proceed, could I please get your full name, mobile number, and email address?"
          else
            "The user chose \"" ++ m.name ++ "\" for their booking of " ++
              toString d.guestCount ++ " guests on " ++ (formatDubai d.bookingUTC).1 ++
              " at " ++ (formatDubai d.bookingUTC).2.1 ++
              ". Please generate a concise and warm confirmation. Then, immediately ask for their full name, mobile number, and email address to finalize the booking, all in one smooth utterance."
        outputContexts :=
          [⟨session ++ "/contexts/booking-flow", 5, some updated⟩,
           ⟨session ++ "/contexts/awaiting-contact-details", 2, none⟩] }

/- ### Capture Guest Count Intent (src/index.js lines 1567-1593) -/

/-- `getParameter(dialogflowRequest, "number")` for the guest-count turn:
the current `number` parameter when truthy (0 is falsy and skipped); the
supplied contexts (the booking-flow draft and the parameterless awaiting
contexts) carry no `number` key, so the fallback yields nothing. -/
def resolveNumber (numberParam : Option Int) : Option Int :=
  match numberParam with
  | some n => if n = 0 then none else some n
  | none => none

/-- Capture Guest Count Intent handler (src/index.js lines 1567-1593): a
missing or non-positive guest count is re-prompted with no context emitted
(the stored draft is left as-is); otherwise the draft's `guestCount` is set
and the flow advances to `awaiting-datetime`. -/
def captureGuestCount (session : String) (numberParam : Option Int)
    (ctxs : List InCtx) : WebhookResponse :=
  let d := match findContext "booking-flow" ctxs with
    | some c => c.parameters
    | none => emptyDraft
  match resolveNumber numberParam with
  | none =>
    { fulfillmentText := "Please provide a valid number of guests.", outputContexts := [] }
  | some g =>
    if g ≤ 0 then
      { fulfillmentText := "Please provide a valid number of guests.", outputContexts := [] }
    else
      { fulfillmentText :=
          "And on what date and time would you like to book? (e.g., \x27tomorrow at 7 PM\x27)"
        outputContexts :=
          [⟨session ++ "/contexts/booking-flow", 5, some { d with guestCount := g }⟩,
           ⟨session ++ "/contexts/awaiting-datetime", 2, none⟩] }

/- ### Contact-details capture: the two revisions -/

/-- The group-lead summary of Capture Contact Details Intent
(src/unnamed/part_000 lines 792-800), shown once all three contact fields
are present (`d` is the post-merge draft). -/
def groupSummaryText (d : BookingDraft) (fullName : String) : String :=
  "Alright, " ++ fullName ++ ", let\x27s summarize your group inquiry:\n" ++
    "Guests: " ++ toString d.guestCount ++ "\n" ++
    "Date: " ++ (formatDubai d.bookingUTC).1 ++ " at " ++ (formatDubai d.bookingUTC).2.1 ++ "\n" ++
    "Venue: " ++ d.venue ++ "\n" ++
    "Email: " ++ d.email_id ++ "\n" ++
    "Mobile: " ++ d.phone_number ++ "\n" ++
    "Is this all correct? (Yes/No)"

/-- The table-reservation summary of Capture Contact Details Intent
(src/unnamed/part_000 lines 801-810); the estimated total line appears only
when `grand_total` is truthy. -/
def tableSummaryText (d : BookingDraft) (fullName : String) : String :=
  "Alright, " ++ fullName ++ ", let\x27s summarize your table reservation:\n" ++
    "Guests: " ++ toString d.guestCount ++ "\n" ++
    "Date: " ++ (formatDubai d.bookingUTC).1 ++ " at " ++ (formatDubai d.bookingUTC).2.1 ++ "\n" ++
    "Venue: " ++ d.venue ++ "\n" ++
    (if d.grand_total ≠ 0 then "Estimated Total: AED" ++ toFixed2 d.grand_total ++ "\n" else "") ++
    "Is this all correct? (Yes/No)"

/-- Capture Contact Details Intent handler (src/unnamed/part_000 lines
764-826 and src/index.js lines 1727-1791): resolves the three contact
parameters through `getParameter` (current turn first, then the carried
booking-flow bag), re-prompts listing the missing fields while leaving the
draft untouched when any is still absent, and otherwise merges and advances
to `awaiting-confirmation`. -/
def captureContactDetails (session : String) (ctxs : List InCtx)
    (pFullName pEmail pPhone : String) : WebhookResponse :=
  let d := match findContext "booking-flow" ctxs with
    | some c => c.parameters
    | none => emptyDraft
  let fullName := getParam pFullName d.full_name
  let emailId := getParam pEmail d.email_id
  let phoneNumber := getParam pPhone d.phone_number
  if fullName = "" ∨ emailId = "" ∨ phoneNumber = "" then
    let missingFields :=
      (if fullName = "" then ["full name"] else []) ++
      (if emailId = "" then ["email"] else []) ++
      (if phoneNumber = "" then ["phone number"] else [])
    { fulfillmentText :=
        "I\x27m missing your " ++ joinSep ", " missingFields ++
          ". Could you please provide all of them?"
      outputContexts := [⟨session ++ "/contexts/awaiting-contact-details", 2, none⟩] }
  else
    let merged : BookingDraft :=
      { d with full_name := fullName, email_id := emailId, phone_number := phoneNumber }
    { fulfillmentText :=
        if merged.type = "group" then groupSummaryText merged fullName
        else tableSummaryText merged fullName
      outputContexts :=
        [⟨session ++ "/contexts/booking-flow", 5, some merged⟩,
         ⟨session ++ "/contexts/awaiting-confirmation", 2, none⟩] }

/-- CollectContactDetails handler (src/index.js lines 974-1058, the earlier
revision of the contact step): the three fields are taken from the current
turn only (`params.person?.name || params.person || ""` etc., resolved here
to a string) and written into the carried draft unconditionally; the
booking-flow context is always re-emitted with the written draft, and the
flow advances to final confirmation only when all three are present. -/
def collectContactDetails (session : String) (ctxs : List InCtx)
    (pPerson pPhone pEmail : String) : WebhookResponse :=
  match findContext "booking-flow" ctxs with
  | none =>
    { fulfillmentText := "I seem to have lost your booking details. Please start over."
      outputContexts := [] }
  | some c =>
    let d := c.parameters
    let written : BookingDraft :=
      { d with full_name := pPerson, mobile_number := pPhone, email_id := pEmail }
    if pPerson ≠ "" ∧ pPhone ≠ "" ∧ pEmail ≠ "" then
      { fulfillmentText :=
          "Alright, " ++ pPerson ++ "! So, just to confirm, your booking for " ++
            toString written.guestCount ++ " guests at " ++
            (if written.venue ≠ "" then written.venue else "the selected venue") ++
            " on " ++ (formatDubai written.bookingUTC).1 ++ " at " ++
            (formatDubai written.bookingUTC).2.1 ++ ". Does that all sound correct?"
        outputContexts :=
          [⟨session ++ "/contexts/booking-flow", 5, some written⟩,
           ⟨session ++ "/contexts/awaiting-final-confirmation", 2, none⟩] }
    else
      let missingFields :=
        (if pPerson = "" then ["full name"] else []) ++
        (if pPhone = "" then ["mobile number"] else []) ++
        (if pEmail = "" then ["email address"] else [])
      { fulfillmentText :=
          "I still need your " ++ joinSep " and " missingFields ++
            " to finalize the booking."
        outputContexts :=
          [⟨session ++ "/contexts/booking-flow", 5, some written⟩,
           ⟨session ++ "/contexts/awaiting-guest-details", 2, none⟩] }

/- ### Finalize: createBooking, sendEmailWithPdf, Confirm Booking Intent -/

/-- The record `createBooking` submits (src/index.js lines 1278-1327): the
draft's contact/venue/guest fields plus the supplied status; package,
add-on and grand-total fields are populated for table bookings and
explicitly nulled for group leads. -/
structure BookingRecord where
  booking_type : String
  full_name : String
  email : String
  phone_number : String
  guest_count : Int
  booking_date : String
  booking_time : String
  venue_link : List String
  status : String
  package_name : Option String := none
  package_id : List String := []
  add_ons : Option String := none
  grand_total : Option Int := none
deriving DecidableEq, Repr

/-- `createBooking` (src/index.js lines 1278-1327 and the same logic at
src/unnamed/part_000 lines 258-327): build the record fields from the draft
and the supplied status and submit once; a store failure raises the typed
booking-creation error (here `Except.error`). -/
def createBooking (d : BookingDraft) (status : String) (storeOk : Bool) :
    Except Unit BookingRecord :=
  let base : BookingRecord :=
    { booking_type := d.type
      full_name := d.full_name
      email := d.email_id
      phone_number := d.phone_number
      guest_count := d.guestCount
      booking_date := d.bookingDate
      booking_time := d.bookingTime
      venue_link := if d.venue_id != "" then [d.venue_id] else []
      status := status }
  let record :=
    if d.type = "table" then
      { base with
          package_name :=
            if d.packages ≠ [] then some (joinSep ", " d.packages) else none
          package_id := d.package_ids
          add_ons :=
            if d.selected_add_ons ≠ [] then some (joinSep ", " d.selected_add_ons)
            else none
          grand_total := some d.grand_total }
    else if d.type = "group" then
      { base with package_name := none, package_id := [], add_ons := none, grand_total := none }
    else base
  if storeOk then Except.ok record else Except.error ()

/-- `sendEmailWithPdf` (src/index.js lines 1373-1417): sends the templated
brochure email over the configured transport; any transport error is caught
and reported as `false` — the function never throws. -/
def sendEmailWithPdf (transport : Except Unit Unit) : Bool :=
  match transport with
  | Except.ok _ => true
  | Except.error _ => false

/-- The missing-context apology of Confirm Booking Intent. -/
def lostDetailsText : String :=
  "I seem to have lost your booking details. Please start over."

/-- The success confirmation of the table branch of Confirm Booking Intent
(src/index.js line 1821). -/
def tableSuccessText (d : BookingDraft) : String :=
  "Excellent, " ++ d.full_name ++ "! Your table reservation for " ++
    toString d.guestCount ++ " guests at " ++
    (if d.venue != "" then d.venue else "the selected venue") ++ " on " ++
    (formatDubai d.bookingUTC).1 ++ " at " ++ (formatDubai d.bookingUTC).2.1 ++
    " is now confirmed!" ++
    (if d.grand_total ≠ 0 ∧ 0 < d.grand_total then
      " Your total is AED" ++ toFixed2 d.grand_total ++ "." else "") ++
    " A confirmation email will be sent to " ++ d.email_id ++ ". Thank you!"

/-- The group-branch confirmation when the brochure email went out
(src/index.js line 1847). -/
def groupEmailOkText (d : BookingDraft) : String :=
  "Thank you, " ++ d.full_name ++
    "! We\x27ve received your group booking inquiry for " ++ toString d.guestCount ++
    " guests at " ++ (if d.venue != "" then d.venue else "the selected venue") ++
    " on " ++ (formatDubai d.bookingUTC).1 ++ " at " ++ (formatDubai d.bookingUTC).2.1 ++
    ". We\x27ve just sent an email to " ++ d.email_id ++
    " with our package details. Our manager will be in touch shortly to help you finalize your selection. Is there anything else I can help you with today?"

/-- The group-branch confirmation when the brochure email could not be sent
(src/index.js line 1849). -/
def groupEmailFailText (d : BookingDraft) : String :=
  "Thank you, " ++ d.full_name ++
    "! We\x27ve received your group booking inquiry for " ++ toString d.guestCount ++
    " guests at " ++ (if d.venue != "" then d.venue else "the selected venue") ++
    " on " ++ (formatDubai d.bookingUTC).1 ++ " at " ++ (formatDubai d.bookingUTC).2.1 ++
    ". We\x27re having trouble sending the package details via email right now, but our manager will be in touch shortly to help you finalize your selection."

/-- Confirm Booking Intent handler output: the webhook response plus the
booking records the handler persisted while producing it. -/
structure ConfirmResult where
  response : WebhookResponse
  created : List BookingRecord
deriving DecidableEq, Repr

/-- Confirm Booking Intent handler (src/index.js lines 1794-1879; the same
logic appears at src/unnamed/part_000 lines 829-909).  `storeOk` is the
record-store outcome consumed by `createBooking` and `mailTransport` the
SMTP outcome consumed by `sendEmailWithPdf`.  Missing booking-flow context
is a hard stop before any persistence; each branch catches its own
`createBooking` failure and keeps the booking-flow context alive
(lifespan 2) for a retry. -/
def confirmBookingIntent (session : String) (ctxs : List InCtx)
    (storeOk : Bool) (mailTransport : Except Unit Unit) : ConfirmResult :=
  match findContext "booking-flow" ctxs with
  | none =>
    { response := { fulfillmentText := lostDetailsText, outputContexts := [] }
      created := [] }
  | some ctx =>
    let d := ctx.parameters
    if d.type = "table" then
      match createBooking d "Confirmed" storeOk with
      | Except.ok r =>
        { response :=
            { fulfillmentText := tableSuccessText d
              outputContexts :=
                [⟨session ++ "/contexts/booking-finalized", 1, none⟩,
                 ⟨session ++ "/contexts/booking-flow", 0, none⟩,
                 ⟨session ++ "/contexts/awaiting-confirmation", 0, none⟩] }
          created := [r] }
      | Except.error _ =>
        { response :=
            { fulfillmentText :=
                "I\x27m sorry, there was an issue finalizing your table reservation. Please try again or contact us directly."
              outputContexts :=
                [⟨session ++ "/contexts/booking-flow", 2, none⟩,
                 ⟨session ++ "/contexts/awaiting-confirmation", 0, none⟩] }
          created := [] }
    else if d.type = "group" then
      match createBooking d "New Lead" storeOk with
      | Except.ok r =>
        let emailSent := sendEmailWithPdf mailTransport
        { response :=
            { fulfillmentText :=
                if emailSent then groupEmailOkText d else groupEmailFailText d
              outputContexts :=
                [⟨session ++ "/contexts/group-lead-submitted", 1, none⟩,
                 ⟨session ++ "/contexts/booking-flow", 0, none⟩,
                 ⟨session ++ "/contexts/awaiting-confirmation", 0, none⟩] }
          created := [r] }
      | Except.error _ =>
        { response :=
            { fulfillmentText :=
                "I\x27m sorry, there was an issue submitting your group inquiry. Please try again or contact us directly."
              outputContexts :=
                [⟨session ++ "/contexts/booking-flow", 2, none⟩,
                 ⟨session ++ "/contexts/awaiting-confirmation", 0, none⟩] }
          created := [] }
    else
      { response :=
          { fulfillmentText :=
              "I\x27m sorry, I couldn\x27t determine the booking type. Please try again."
            outputContexts :=
              [⟨session ++ "/contexts/booking-flow", 0, none⟩,
               ⟨session ++ "/contexts/awaiting-confirmation", 0, none⟩] }
        created := [] }

/- ### Helper lemmas -/

/-- Substring containment is preserved on the left of an append. -/
theorem strContains_append_left (a b pat : String) (h : strContains a pat = true) :
    strContains (a ++ b) pat = true := by
  simp only [strContains, decide_eq_true_eq] at h ⊢
  rw [String.data_append]
  exact h.trans (List.prefix_append a.data b.data).isInfix

/-- Substring containment is preserved on the right of an append. -/
theorem strContains_append_right (a b pat : String) (h : strContains b pat = true) :
    strContains (a ++ b) pat = true := by
  simp only [strContains, decide_eq_true_eq] at h ⊢
  rw [String.data_append]
  exact h.trans (List.suffix_append a.data b.data).isInfix

/-- The non-blank-preservation property of `getParam`: a stored non-blank
value stays non-blank, and stays unchanged unless a non-blank current value
replaces it. -/
theorem getParam_preserves (current stored : String) (h : stored ≠ "") :
    getParam current stored ≠ "" ∧ (current = "" → getParam current stored = stored) := by
  unfold getParam
  by_cases hc : current = "" <;> simp [hc, h]

/- ### Claims -/

/-- Claim C1 (counterexample): at the boundary guest count 10 the code infers
type `table` (the handler tests `guestCount <= 10`), so the claimed
`table iff g < 10` (with 10 mapping to `group`) is false at g = 10. -/
theorem c1_counterexample :
    inferType 10 = "table" ∧ ¬(inferType 10 = "table" ↔ (10 : Int) < 10) := by
  constructor
  · rfl
  · intro h
    exact absurd (h.mp rfl) (by decide)

/-- Claim C1 (amended): for every guest count g the inferred booking type is
`table` exactly when g ≤ 10 and `group` exactly when 10 < g; in particular
the boundary g = 10 yields `table`. -/
theorem c1_amended (g : Int) :
    (inferType g = "table" ↔ g ≤ 10) ∧ (inferType g = "group" ↔ 10 < g) := by
  by_cases h : g ≤ 10
  · simp [inferType, inferCategory, h]
  · simp [inferType, inferCategory, h]
    omega

/-- The UTC instant (in minutes since the Unix epoch) of 19:00 Asia/Dubai
wall clock on 2025-08-01, written from the spec sentence: Dubai is UTC+04:00,
so the instant is 15:00 UTC on the same day. -/
def specUtcInstant : Int := utcMinutes 2025 8 1 15 0

/-- Claim C4: on the Booking Intent with guestCount 12, bookingdate
2025-08-01 and bookingtime 2025-08-01T19:00:00+04:00, the handler infers
type `group`, advances to venue selection (awaiting-venue-selection,
lifespan 2), and the re-emitted booking-flow context carries guestCount 12,
type group and a bookingUTC equal to the UTC instant of 19:00 Dubai local on
2025-08-01 — the wall-clock time is taken literally from the offset-bearing
substring. -/
theorem c4_theorem :
    bookingIntent 12 "2025-08-01" "2025-08-01T19:00:00+04:00" =
      some
        { bookingFlow :=
            { guestCount := 12, bookingUTC := "2025-08-01T15:00:00.000Z", type := "group" }
          bookingFlowLifespan := 5
          venueSelection := true
          venueSelectionLifespan := 2 } ∧
    parseIsoUtc "2025-08-01T15:00:00.000Z" = some specUtcInstant :=
  ⟨rfl, rfl⟩

/-- Claim C9: the venue-listing operation is total with postcondition —
fetch/auth failure yields the empty list, every returned venue has a
non-empty name, and under a supplied (truthy) minimum capacity every
returned venue has standing capacity at least the threshold. -/
theorem c9_theorem (fetchResult : Except Unit (List RawRecord))
    (guestCount : Option Int) (t : Int) :
    (∀ e : Unit, getAvailableVenues (Except.error e) guestCount = []) ∧
    (∀ v ∈ getAvailableVenues fetchResult guestCount, v.name ≠ "") ∧
    (t ≠ 0 → ∀ v ∈ getAvailableVenues fetchResult (some t), t ≤ v.standing_capacity) := by
  refine ⟨fun _ => rfl, ?_, ?_⟩
  · intro v hv
    cases fetchResult with
    | error e => simp [getAvailableVenues] at hv
    | ok records =>
      simp only [getAvailableVenues, List.mem_filter, List.mem_map] at hv
      obtain ⟨⟨r, hr, rfl⟩, hname⟩ := hv
      simpa using hname
  · intro ht v hv
    cases fetchResult with
    | error e => simp [getAvailableVenues] at hv
    | ok records =>
      simp only [getAvailableVenues, List.mem_filter, List.mem_map] at hv
      obtain ⟨⟨r, hr, rfl⟩, _⟩ := hv
      obtain ⟨_, hpred⟩ := hr
      simp only [if_neg ht] at hpred
      cases hc : r.standing_capacity with
      | none => rw [hc] at hpred; exact absurd hpred (by simp)
      | some c =>
        rw [hc] at hpred
        simpa [hc] using of_decide_eq_true hpred

/-- Concrete fetch outcome exercising `getAvailableVenues`. -/
def demoRecords : List RawRecord :=
  [⟨"r1", some "Hall", none, some 50, some 30⟩,
   ⟨"r2", none, none, some 40, none⟩,
   ⟨"r3", some "Nook", none, some 8, none⟩]

/-- Witness for C9 at a concrete fetch result and threshold 12. -/
theorem c9_witness :
    (12 : Int) ≠ 0 ∧
      ∀ v ∈ getAvailableVenues (Except.ok demoRecords) (some 12), (12 : Int) ≤ v.standing_capacity :=
  ⟨by decide, (c9_theorem (Except.ok demoRecords) (some 12) 12).2.2 (by decide)⟩

/-- Claim C8: a guest-count capture whose `number` parameter is 0 (or any
non-positive value) is answered with the re-prompt for a valid guest count
and emits no context at all — in particular the stored booking-flow draft is
not touched. -/
theorem c8_theorem (session : String) (ctxs : List InCtx) (n : Int) (h : n ≤ 0) :
    captureGuestCount session (some n) ctxs =
      { fulfillmentText := "Please provide a valid number of guests.", outputContexts := [] } := by
  by_cases h0 : n = 0
  · simp [captureGuestCount, resolveNumber, h0]
  · simp [captureGuestCount, resolveNumber, h0, h]

/-- Witness for C8 at number 0 with a concrete stored draft. -/
theorem c8_witness :
    (0 : Int) ≤ 0 ∧
      captureGuestCount "s1" (some 0) [⟨"s1/contexts/booking-flow", emptyDraft⟩] =
        { fulfillmentText := "Please provide a valid number of guests.", outputContexts := [] } :=
  ⟨by decide, c8_theorem "s1" [⟨"s1/contexts/booking-flow", emptyDraft⟩] 0 (by decide)⟩

/-- Claim C3: a confirm request whose supplied contexts contain no
booking-flow context is answered with the restart apology, and no record is
persisted. -/
theorem c3_theorem (session : String) (ctxs : List InCtx) (storeOk : Bool)
    (mail : Except Unit Unit)
    (h : ∀ c ∈ ctxs, strEndsWith c.name "/contexts/booking-flow" = false) :
    confirmBookingIntent session ctxs storeOk mail =
      { response := { fulfillmentText := lostDetailsText, outputContexts := [] }
        created := [] } := by
  have happ : ("/contexts/" ++ "booking-flow" : String) = "/contexts/booking-flow" := rfl
  have hf : findContext "booking-flow" ctxs = none := by
    rw [findContext, List.find?_eq_none]
    intro c hc
    rw [happ, h c hc]
    exact Bool.false_ne_true
  unfold confirmBookingIntent
  rw [hf]

/-- Witness for C3: a request carrying only the awaiting-confirmation
context. -/
theorem c3_witness :
    (∀ c ∈ [InCtx.mk "s1/contexts/awaiting-confirmation" emptyDraft],
        strEndsWith c.name "/contexts/booking-flow" = false) ∧
      confirmBookingIntent "s1" [⟨"s1/contexts/awaiting-confirmation", emptyDraft⟩] true
          (Except.ok ()) =
        { response := { fulfillmentText := lostDetailsText, outputContexts := [] }
          created := [] } :=
  ⟨by decide,
   c3_theorem "s1" [⟨"s1/contexts/awaiting-confirmation", emptyDraft⟩] true (Except.ok ())
     (by decide)⟩

/-- Concrete group-type booking draft shared by the finalize-step witnesses. -/
def demoGroupDraft : BookingDraft :=
  { type := "group", guestCount := 12, bookingUTC := "2025-08-01T15:00:00.000Z",
    venue := "Hall", venue_id := "r1", full_name := "Alice Smith",
    phone_number := "0501234567", email_id := "alice@example.com" }

/-- Claim C5: the status of every record written by the confirm step is
determined by the draft's type — `Confirmed` for a table draft, `New Lead`
for a group draft (and nothing is written for any other type). -/
theorem c5_theorem (session : String) (ctxs : List InCtx) (mail : Except Unit Unit)
    (ctx : InCtx) (h : findContext "booking-flow" ctxs = some ctx) :
    ((confirmBookingIntent session ctxs true mail).created.map fun r => r.status) =
      (if ctx.parameters.type = "table" then ["Confirmed"]
       else if ctx.parameters.type = "group" then ["New Lead"] else []) := by
  unfold confirmBookingIntent
  rw [h]
  by_cases ht : ctx.parameters.type = "table"
  · simp [ht, createBooking]
  · by_cases hg : ctx.parameters.type = "group"
    · simp [ht, hg, createBooking]
    · simp [ht, hg]

/-- Witness for C5: the concrete group draft is persisted with status
New Lead. -/
theorem c5_witness :
    findContext "booking-flow" [⟨"s1/contexts/booking-flow", demoGroupDraft⟩] =
        some ⟨"s1/contexts/booking-flow", demoGroupDraft⟩ ∧
      ((confirmBookingIntent "s1" [⟨"s1/contexts/booking-flow", demoGroupDraft⟩] true
            (Except.ok ())).created.map fun r => r.status) =
        (if demoGroupDraft.type = "table" then ["Confirmed"]
         else if demoGroupDraft.type = "group" then ["New Lead"] else []) :=
  ⟨rfl,
   c5_theorem "s1" [⟨"s1/contexts/booking-flow", demoGroupDraft⟩] (Except.ok ())
     ⟨"s1/contexts/booking-flow", demoGroupDraft⟩ rfl⟩

/-- Claim C6: a group-type confirm whose record-store write succeeds but
whose mail transport fails still returns the normal success response: the
lead is persisted, the text reports the inquiry as received and mentions the
email trouble, and the handler completes normally (no exception — the
success contexts are emitted). -/
theorem c6_theorem (session : String) (ctxs : List InCtx) (ctx : InCtx)
    (h : findContext "booking-flow" ctxs = some ctx)
    (hg : ctx.parameters.type = "group") :
    strContains (confirmBookingIntent session ctxs true (Except.error ())).response.fulfillmentText
        "received your group booking inquiry" = true ∧
    strContains (confirmBookingIntent session ctxs true (Except.error ())).response.fulfillmentText
        "trouble sending the package details via email" = true ∧
    (confirmBookingIntent session ctxs true (Except.error ())).created ≠ [] ∧
    (confirmBookingIntent session ctxs true (Except.error ())).response.outputContexts =
      [⟨session ++ "/contexts/group-lead-submitted", 1, none⟩,
       ⟨session ++ "/contexts/booking-flow", 0, none⟩,
       ⟨session ++ "/contexts/awaiting-confirmation", 0, none⟩] := by
  have hres :
      confirmBookingIntent session ctxs true (Except.error ()) =
        { response :=
            { fulfillmentText := groupEmailFailText ctx.parameters
              outputContexts :=
                [⟨session ++ "/contexts/group-lead-submitted", 1, none⟩,
                 ⟨session ++ "/contexts/booking-flow", 0, none⟩,
                 ⟨session ++ "/contexts/awaiting-confirmation", 0, none⟩] }
          created := [(createBooking ctx.parameters "New Lead" true).toOption.getD
            { booking_type := "", full_name := "", email := "", phone_number := ""
              guest_count := 0, booking_date := "", booking_time := ""
              venue_link := [], status := "" }] } := by
    unfold confirmBookingIntent
    rw [h]
    simp [hg, createBooking, sendEmailWithPdf, Except.toOption]
  rw [hres]
  refine ⟨?_, ?_, by simp, rfl⟩
  · unfold groupEmailFailText
    apply strContains_append_left
    apply strContains_append_left
    apply strContains_append_left
    apply strContains_append_left
    apply strContains_append_left
    apply strContains_append_left
    apply strContains_append_left
    apply strContains_append_left
    apply strContains_append_right
    decide
  · unfold groupEmailFailText
    apply strContains_append_right
    decide

/-- Witness for C6 at the concrete group draft. -/
theorem c6_witness :
    strContains (confirmBookingIntent "s1" [⟨"s1/contexts/booking-flow", demoGroupDraft⟩] true
          (Except.error ())).response.fulfillmentText "received your group booking inquiry" = true ∧
    strContains (confirmBookingIntent "s1" [⟨"s1/contexts/booking-flow", demoGroupDraft⟩] true
          (Except.error ())).response.fulfillmentText
        "trouble sending the package details via email" = true ∧
    (confirmBookingIntent "s1" [⟨"s1/contexts/booking-flow", demoGroupDraft⟩] true
        (Except.error ())).created ≠ [] ∧
    (confirmBookingIntent "s1" [⟨"s1/contexts/booking-flow", demoGroupDraft⟩] true
        (Except.error ())).response.outputContexts =
      [⟨"s1" ++ "/contexts/group-lead-submitted", 1, none⟩,
       ⟨"s1" ++ "/contexts/booking-flow", 0, none⟩,
       ⟨"s1" ++ "/contexts/awaiting-confirmation", 0, none⟩] :=
  c6_theorem "s1" [⟨"s1/contexts/booking-flow", demoGroupDraft⟩]
    ⟨"s1/contexts/booking-flow", demoGroupDraft⟩ rfl rfl

/-- Claim C10: when the record-store write throws during confirm (table or
group draft alike), nothing is persisted and the response re-emits the
booking-flow context with lifespan 2 and no parameter overwrite (so the
platform keeps the accumulated draft for a retry), zeroing only the
awaiting-confirmation context. -/
theorem c10_theorem (session : String) (ctxs : List InCtx) (mail : Except Unit Unit)
    (ctx : InCtx) (h : findContext "booking-flow" ctxs = some ctx)
    (htype : ctx.parameters.type = "table" ∨ ctx.parameters.type = "group") :
    (confirmBookingIntent session ctxs false mail).response.outputContexts =
      [⟨session ++ "/contexts/booking-flow", 2, none⟩,
       ⟨session ++ "/contexts/awaiting-confirmation", 0, none⟩] ∧
    (confirmBookingIntent session ctxs false mail).created = [] := by
  unfold confirmBookingIntent
  rw [h]
  rcases htype with ht | hgr
  · simp [ht, createBooking]
  · simp [hgr, createBooking]

/-- Witness for C10 at the concrete group draft and a failing store. -/
theorem c10_witness :
    (confirmBookingIntent "s1" [⟨"s1/contexts/booking-flow", demoGroupDraft⟩] false
        (Except.ok ())).response.outputContexts =
      [⟨"s1" ++ "/contexts/booking-flow", 2, none⟩,
       ⟨"s1" ++ "/contexts/awaiting-confirmation", 0, none⟩] ∧
    (confirmBookingIntent "s1" [⟨"s1/contexts/booking-flow", demoGroupDraft⟩] false
        (Except.ok ())).created = [] :=
  c10_theorem "s1" [⟨"s1/contexts/booking-flow", demoGroupDraft⟩] (Except.ok ())
    ⟨"s1/contexts/booking-flow", demoGroupDraft⟩ rfl (Or.inr rfl)

/-- Carried draft with known name and email but no phone, used to refute and
to witness the contact-merge claims. -/
def demoContactDraft : BookingDraft :=
  { type := "group", guestCount := 12, bookingUTC := "2025-08-01T15:00:00.000Z",
    venue := "Hall", venue_id := "r1", full_name := "Alice Smith",
    mobile_number := "0501234567", email_id := "alice@example.com" }

/-- Claim C2 (counterexample): the CollectContactDetails revision overwrites
the carried contact fields unconditionally, so a turn with all three
parameters blank clobbers the previously known full name (and the clobbered
draft is re-emitted in the booking-flow context). -/
theorem c2_counterexample :
    demoContactDraft.full_name = "Alice Smith" ∧
      ((collectContactDetails "s1" [⟨"s1/contexts/booking-flow", demoContactDraft⟩]
            "" "" "").outputContexts.map fun c => c.params.map fun d => d.full_name) =
        [some "", none] :=
  ⟨rfl, rfl⟩

/-- Claim C2 (amended): in the Capture Contact Details Intent handler (the
getParameter-based merge of the cited part_000 revision and of index.js
lines 1727-1791) no previously non-empty contact field of the carried draft
is ever replaced by an empty value: every parameter bag the handler emits
keeps each such field non-empty, and unchanged unless a non-empty
current-turn value arrived.  The CollectContactDetails revision (index.js
lines 974-1058) instead overwrites all three fields unconditionally. -/
theorem c2_theorem (session : String) (ctxs : List InCtx) (p1 p2 p3 : String)
    (ctx : InCtx) (h : findContext "booking-flow" ctxs = some ctx) :
    ∀ c ∈ (captureContactDetails session ctxs p1 p2 p3).outputContexts,
      ∀ d2, c.params = some d2 →
        (ctx.parameters.full_name ≠ "" →
          d2.full_name ≠ "" ∧ (p1 = "" → d2.full_name = ctx.parameters.full_name)) ∧
        (ctx.parameters.email_id ≠ "" →
          d2.email_id ≠ "" ∧ (p2 = "" → d2.email_id = ctx.parameters.email_id)) ∧
        (ctx.parameters.phone_number ≠ "" →
          d2.phone_number ≠ "" ∧ (p3 = "" → d2.phone_number = ctx.parameters.phone_number)) := by
  intro c hc d2 hd2
  simp only [captureContactDetails, h] at hc
  split at hc
  · simp only [List.mem_singleton] at hc
    subst hc
    simp at hd2
  · simp only [List.mem_cons, List.not_mem_nil, or_false] at hc
    rcases hc with hc | hc
    · subst hc
      simp only [Option.some.injEq] at hd2
      subst hd2
      exact ⟨fun hne => getParam_preserves p1 _ hne,
             fun hne => getParam_preserves p2 _ hne,
             fun hne => getParam_preserves p3 _ hne⟩
    · subst hc
      simp at hd2

/-- The merged draft the capture handler emits in the C2 witness turn. -/
def demoMergedDraft : BookingDraft :=
  { demoContactDraft with phone_number := "0509998888" }

/-- Witness for C2: a turn supplying only the phone keeps the stored name
and email. -/
theorem c2_witness :
    (demoContactDraft.full_name ≠ "" →
        demoMergedDraft.full_name ≠ "" ∧
          ("" = "" → demoMergedDraft.full_name = demoContactDraft.full_name)) ∧
      (demoContactDraft.email_id ≠ "" →
        demoMergedDraft.email_id ≠ "" ∧
          ("" = "" → demoMergedDraft.email_id = demoContactDraft.email_id)) ∧
      (demoContactDraft.phone_number ≠ "" →
        demoMergedDraft.phone_number ≠ "" ∧
          ("0509998888" = "" → demoMergedDraft.phone_number = demoContactDraft.phone_number)) :=
  c2_theorem "s1" [⟨"s1/contexts/booking-flow", demoContactDraft⟩] "" "" "0509998888"
    ⟨"s1/contexts/booking-flow", demoContactDraft⟩ rfl
    ⟨"s1" ++ "/contexts/booking-flow", 5, some demoMergedDraft⟩ (by decide)
    demoMergedDraft rfl

/-- Draft with a recorded venue, guest count and time, used for the venue
idempotence claims. -/
def demoVenueDraft : BookingDraft :=
  { type := "group", guestCount := 12, bookingUTC := "2025-08-01T15:00:00.000Z",
    venue := "Hall", venue_id := "r1" }

/-- Claim C7 (counterexample): an empty venue-name turn with a venue already
recorded in the carried draft still regresses to the venue re-prompt when
the capacity-filtered venue fetch no longer returns it (here: the fetch
fails, so the list is empty) — the handler does not proceed to
contact-details. -/
theorem c7_counterexample :
    demoVenueDraft.venue ≠ "" ∧
      selectVenueIntent "s1" "" [⟨"s1/contexts/booking-flow", demoVenueDraft⟩]
          (Except.error ()) =
        { fulfillmentText := venueNotFoundText, outputContexts := [] } :=
  ⟨by decide, rfl⟩

/-- Claim C7 (amended): venue selection is idempotent provided the carried
draft also holds a guest count and a bookingUTC and the capacity-filtered
fetch still returns the recorded venue with sufficient standing capacity —
an empty (or dot, or same-name) venue parameter then advances to (or stays
at) the contact-details step instead of the venue re-prompt: the emitted
contexts are exactly booking-flow (lifespan 5) and
awaiting-contact-details (lifespan 2). -/
theorem c7_amended (session venueNameParam : String) (ctxs : List InCtx)
    (fetchResult : Except Unit (List RawRecord)) (ctx : InCtx)
    (h : findContext "booking-flow" ctxs = some ctx)
    (hp : venueNameParam = "" ∨ venueNameParam = "." ∨ venueNameParam = ctx.parameters.venue)
    (hv : ctx.parameters.venue ≠ "")
    (hgc : ctx.parameters.guestCount ≠ 0)
    (hutc : ctx.parameters.bookingUTC ≠ "")
    (hmatch : (getAvailableVenues fetchResult (some ctx.parameters.guestCount)).any
        (venueMatches (strLower ctx.parameters.venue) ctx.parameters.guestCount) = true) :
    ((selectVenueIntent session venueNameParam ctxs fetchResult).outputContexts.map
        fun c => (c.name, c.lifespanCount)) =
      [(session ++ "/contexts/booking-flow", 5),
       (session ++ "/contexts/awaiting-contact-details", 2)] := by
  have hraw :
      (if (venueNameParam = "" ∨ venueNameParam = ".") ∧ ctx.parameters.venue ≠ "" then
          ctx.parameters.venue
        else venueNameParam) = ctx.parameters.venue := by
    rcases hp with hp | hp | hp
    · rw [if_pos ⟨Or.inl hp, hv⟩]
    · rw [if_pos ⟨Or.inr hp, hv⟩]
    · by_cases hcond : (venueNameParam = "" ∨ venueNameParam = ".") ∧ ctx.parameters.venue ≠ ""
      · rw [if_pos hcond]
      · rw [if_neg hcond, hp]
  simp only [selectVenueIntent, h, hraw]
  rw [if_neg (by push_neg; exact ⟨hgc, hutc⟩)]
  rcases List.any_eq_true.mp hmatch with ⟨v, hvmem, hvpred⟩
  cases hfind :
      (getAvailableVenues fetchResult (some ctx.parameters.guestCount)).find?
        (venueMatches (strLower ctx.parameters.venue) ctx.parameters.guestCount) with
  | none => exact absurd hvpred (by simpa using List.find?_eq_none.mp hfind v hvmem)
  | some m => rfl

/-- Witness for C7 at a concrete recorded venue present in the fetched
list. -/
theorem c7_witness :
    ((selectVenueIntent "s1" "" [⟨"s1/contexts/booking-flow", demoVenueDraft⟩]
          (Except.ok demoRecords)).outputContexts.map fun c => (c.name, c.lifespanCount)) =
      [("s1" ++ "/contexts/booking-flow", 5),
       ("s1" ++ "/contexts/awaiting-contact-details", 2)] :=
  c7_amended "s1" "" [⟨"s1/contexts/booking-flow", demoVenueDraft⟩] (Except.ok demoRecords)
    ⟨"s1/contexts/booking-flow", demoVenueDraft⟩ rfl (Or.inl rfl) (by decide) (by decide)
    (by decide) (by decide)

end BookingWebhook
